import Mathlib

/-!
Verification of the palm-ai-api server (`src/server.js`) against its
natural-language specification.

The JavaScript source is shallowly embedded: pure computations become Lean
functions over `ℚ`, `ℤ`, `Nat`, `String` and lists; the outcomes of external
collaborators (the LINE content fetch, the image decoder, the TensorFlow
predict call, the OpenAI chat completion) are passed in explicitly as data, so
each handler becomes a total function from its inputs and collaborator
outcomes to the trace of its observable effects (replies sent, tensors
created and disposed, predict calls made).
-/

namespace PalmAI

/-! ## Decision rule and reading generator

`server.js`:
`const confidence = Math.max(prediction[0], 1 - prediction[0]) * 100;`
`const hand = prediction[0] > 0.5 ? 'right' : 'left';`
`const handJa = prediction[0] > 0.5 ? '右手' : '左手';`
`res.json({ ..., confidence: Math.round(confidence), ... })`.
-/

/-- JavaScript `Math.round` on a nonnegative rational: round half away from
zero, which for nonnegative arguments is `⌊x + 1/2⌋`. -/
def jsRound (x : ℚ) : ℤ := ⌊x + 1/2⌋

/-- The raw (pre-rounding) confidence: `Math.max(p, 1 - p) * 100`. -/
def confidenceOf (p : ℚ) : ℚ := max p (1 - p) * 100

/-- The integer confidence reported in responses: `Math.round(confidence)`. -/
def roundedConfidence (p : ℚ) : ℤ := jsRound (confidenceOf p)

/-- The English hand label: `prediction[0] > 0.5 ? 'right' : 'left'`. -/
def handOf (p : ℚ) : String := if 1/2 < p then "right" else "left"

/-- The Japanese hand label: `prediction[0] > 0.5 ? '右手' : '左手'`. -/
def handJaOf (p : ℚ) : String := if 1/2 < p then "右手" else "左手"

/-- `generateReading(hand)`: fixed lookup with a default for unknown keys
(`readings[hand] || 'Great energy detected in your palm.'`). -/
def generateReading (hand : String) : String :=
  if hand = "left" then "Your left hand reveals inner potential and creativity."
  else if hand = "right" then "Your right hand shows drive and determination."
  else "Great energy detected in your palm."

/-! ## Image preprocessing

`server.js`:
`const buffer = await sharp(input).resize(224, 224).raw().toBuffer();`
`const array = new Float32Array(buffer.length);`
`for (let i = 0; i < buffer.length; i++) array[i] = buffer[i] / 255.0;`
`const tensor = tf.tensor4d(array, [1, 224, 224, 3]);`

`sharp(...).resize(224,224).raw()` decodes the input, resizes it to 224×224
(cover fit) and emits the raw interleaved bytes of the resized image, one byte
per channel per pixel, keeping the source's channel count (no alpha removal
and no channel replication is requested anywhere in the source).  A
successfully decoded-and-resized image is therefore abstracted as its channel
count together with the 224·224·channels raw bytes. -/

structure DecodedImage where
  channels : Nat
  resizedBytes : List Nat
  length_eq : resizedBytes.length = 224 * 224 * channels
  bytes_lt : ∀ b ∈ resizedBytes, b < 256

/-- The `Float32Array` fill loop: every byte is divided by 255. -/
def toFloat32Array (buffer : List Nat) : List ℚ :=
  buffer.map (fun (b : Nat) => (b : ℚ) / 255)

/-- A tf.js dense tensor: a shape and its flat data. -/
structure Tensor where
  shape : List Nat
  data : List ℚ

/-- Number of elements a shape requires. -/
def shapeSize (shape : List Nat) : Nat := shape.foldl (fun a b => a * b) 1

/-- `tf.tensor4d(values, shape)`: succeeds only when the flat data has
exactly as many elements as the shape requires, otherwise throws. -/
def tensor4d (values : List ℚ) (shape : List Nat) : Except String Tensor :=
  if values.length = shapeSize shape then .ok ⟨shape, values⟩
  else .error "tensor4d: values length does not match the requested shape"

/-- The preprocessing applied to a successfully decoded image: normalize the
raw bytes to `[0,1]` and build the `[1,224,224,3]` tensor. -/
def preprocess (img : DecodedImage) : Except String Tensor :=
  tensor4d (toFloat32Array img.resizedBytes) [1, 224, 224, 3]

/-! ## Basic preprocessing lemmas -/

theorem toFloat32Array_length (buffer : List Nat) :
    (toFloat32Array buffer).length = buffer.length := by
  simp [toFloat32Array]

theorem shapeSize_target : shapeSize [1, 224, 224, 3] = 150528 := rfl

theorem preprocess_ok_of_three_channels (img : DecodedImage)
    (h : img.channels = 3) :
    preprocess img = .ok ⟨[1, 224, 224, 3], toFloat32Array img.resizedBytes⟩ := by
  unfold preprocess tensor4d
  rw [if_pos]
  rw [toFloat32Array_length, img.length_eq, h, shapeSize_target]

theorem preprocess_err_of_channels_ne_three (img : DecodedImage)
    (h : img.channels ≠ 3) : (preprocess img).toOption = none := by
  unfold preprocess tensor4d
  rw [if_neg]
  · rfl
  · rw [toFloat32Array_length, img.length_eq, shapeSize_target]
    intro hc
    exact h (by omega)

theorem preprocess_isOk_channels (img : DecodedImage) (t : Tensor)
    (h : preprocess img = .ok t) : img.channels = 3 := by
  by_cases hc : img.channels = 3
  · exact hc
  · have := preprocess_err_of_channels_ne_three img hc
    rw [h] at this
    simp [Except.toOption] at this

theorem toFloat32Array_mem_unit (img : DecodedImage) :
    ∀ v ∈ toFloat32Array img.resizedBytes, 0 ≤ v ∧ v ≤ 1 := by
  intro v hv
  obtain ⟨b, hb, rfl⟩ := List.mem_map.1 hv
  have hlt : b < 256 := img.bytes_lt b hb
  have hb' : b ≤ 255 := by omega
  constructor
  · positivity
  · rw [div_le_one (by norm_num : (0:ℚ) < 255)]
    exact_mod_cast hb'

/-! ## Fortune orchestrator

`getChatGPTFortune(palmData)` makes exactly one `fetch` to the chat-completion
service inside a `try` block; a network error, a non-ok HTTP status
(`if (!response.ok) throw ...`) and a malformed body
(`result.choices[0].message.content` missing) all land in the single `catch`,
which returns a fallback string built only from `palmData.hand`,
`palmData.palmReading` and `palmData.confidence`.  The function therefore
never throws and makes exactly one outbound attempt. -/

/-- The `palmData` object built by the pipeline (the constant `success: true`
field is omitted; it is never read). -/
structure PalmData where
  hand : String
  handEn : String
  confidence : ℤ
  palmReading : String

/-- Outcome of the single chat-completion `fetch`: a thrown network error, or
a response with its `ok` flag and the extracted
`choices[0].message.content` (`none` when the body is malformed). -/
inductive ChatOutcome where
  | networkError
  | response (ok : Bool) (content : Option String)

/-- The chat call fails when the fetch throws, the status is not ok, or the
body has no `choices[0].message.content`. -/
def ChatOutcome.isFailure : ChatOutcome → Bool
  | .networkError => true
  | .response ok content => !ok || content.isNone

/-- The deterministic fallback text returned by the `catch` block, built only
from the hand label, the basic reading and the confidence. -/
def fallbackFortune (pd : PalmData) : String :=
  pd.hand ++ "の手相を拝見させていただきました✋\n\n" ++
  pd.palmReading ++ "\n\n" ++
  "信頼度: " ++ toString pd.confidence ++ "%\n\n" ++
  "※より詳しい鑑定は後ほどお返しいたします。しばらくお待ちください。"

/-- `getChatGPTFortune`: the returned text together with the number of
outbound fetch attempts made (always exactly one; the `catch` performs no
retry). -/
def getChatGPTFortune (pd : PalmData) (o : ChatOutcome) : String × Nat :=
  match o with
  | .networkError => (fallbackFortune pd, 1)
  | .response ok content =>
      if ok then
        match content with
        | some c => (c, 1)
        | none => (fallbackFortune pd, 1)
      else (fallbackFortune pd, 1)

/-! ## The webhook image pipeline

`handlePalmReading(event)` runs, inside one `try` block: the LINE content
fetch (throws on network error; `if (!imageResponse.ok) throw`), the sharp
decode+resize (throws on invalid bytes), the `loaded` check
(`if (!loaded) throw`), `tf.tensor4d` (throws on a size mismatch),
`model.predict` and finally `getChatGPTFortune` and `replyToLine`.  The
`catch` block sends one fixed failure message.  `replyToLine` and
`getChatGPTFortune` swallow their own errors, so the `catch` can only be
entered from the earlier stages.  No `tensor.dispose()` call appears anywhere
in `handlePalmReading`. -/

/-- Outcome of the LINE content fetch: a thrown network error, or a response
with its `ok` flag and the result of decoding its body with sharp
(`.error` when sharp throws on invalid image bytes). -/
inductive FetchOutcome where
  | networkError
  | response (ok : Bool) (decoded : Except String DecodedImage)

/-- The collaborator outcomes one image event's pipeline can observe. -/
structure ImageEnv where
  fetch : FetchOutcome
  predict : Except String ℚ
  chat : ChatOutcome

/-- Observable effects of one `handlePalmReading` invocation. -/
structure PipelineTrace where
  replies : List (String × String)
  tensorsCreated : Nat
  tensorsDisposed : Nat
  predictCalls : Nat
deriving DecidableEq, Repr

/-- The fixed failure reply sent by `handlePalmReading`'s `catch` block. -/
def analysisFailedMessage : String :=
  "申し訳ございません。手相の解析中にエラーが発生しました。🙏\n\n" ++
  "📸 撮影のコツ：\n" ++
  "• 明るい場所で撮影\n" ++
  "• 手のひら全体が写るように\n" ++
  "• ピンぼけしないよう注意\n\n" ++
  "もう一度お試しください。"

/-- A trace that ends in the fixed failure reply, after having created and
disposed the given numbers of tensors and made the given number of predict
calls. -/
def failureTrace (replyToken : String) (created disposed predicts : Nat) :
    PipelineTrace :=
  { replies := [(replyToken, analysisFailedMessage)], tensorsCreated := created,
    tensorsDisposed := disposed, predictCalls := predicts }

/-- The `palmData` object built after a successful predict. -/
def mkPalmData (p : ℚ) : PalmData :=
  { hand := handJaOf p, handEn := handOf p, confidence := roundedConfidence p,
    palmReading := generateReading (handOf p) }

/-- `handlePalmReading(event)` as a function from the model-loaded flag and
the collaborator outcomes to the trace of its effects. -/
def handlePalmReading (replyToken : String) (loaded : Bool) (env : ImageEnv) :
    PipelineTrace :=
  match env.fetch with
  | .networkError => failureTrace replyToken 0 0 0
  | .response ok decoded =>
      if ok then
        match decoded with
        | .error _ => failureTrace replyToken 0 0 0
        | .ok img =>
            if loaded then
              match preprocess img with
              | .error _ => failureTrace replyToken 0 0 0
              | .ok _t =>
                  match env.predict with
                  | .error _ => failureTrace replyToken 1 0 1
                  | .ok p =>
                      { replies :=
                          [(replyToken, (getChatGPTFortune (mkPalmData p) env.chat).1)],
                        tensorsCreated := 1, tensorsDisposed := 0,
                        predictCalls := 1 }
            else failureTrace replyToken 0 0 0
      else failureTrace replyToken 0 0 0

/-- True exactly when some stage of the image pipeline before the reply step
fails: the content fetch throws or is non-ok, sharp cannot decode, the model
is not loaded, the tensor size check fails (channel count ≠ 3), or predict
throws. -/
def pipelineFails (loaded : Bool) (env : ImageEnv) : Bool :=
  match env.fetch with
  | .networkError => true
  | .response ok decoded =>
      !ok ||
      (match decoded with
       | .error _ => true
       | .ok img =>
           !loaded || img.channels != 3 ||
           (match env.predict with
            | .error _ => true
            | .ok _ => false))

/-! ## The standalone `/analyze-palm` endpoint

`app.post('/analyze-palm', ...)`: returns 503 when the model is not loaded,
400 when no file was uploaded; otherwise runs sharp, the normalize loop,
`tf.tensor4d`, `model.predict`, sends the JSON response and only then calls
`tensor.dispose()` — all inside a `try` whose `catch` answers 500.  A predict
failure therefore skips the dispose. -/

/-- The HTTP outcome of one `/analyze-palm` request. -/
inductive AnalyzeOutcome where
  | err (status : Nat) (msg : String)
  | success (hand handEn : String) (confidence : ℤ)
      (palmReading lineMessage : String)
deriving DecidableEq, Repr

/-- Observable effects of one `/analyze-palm` request. -/
structure AnalyzeTrace where
  outcome : AnalyzeOutcome
  tensorsCreated : Nat
  tensorsDisposed : Nat
  predictCalls : Nat
deriving DecidableEq, Repr

/-- The `lineMessage` field of the success response. -/
def lineMessageOf (p : ℚ) : String :=
  handJaOf p ++ "を検出！確信度: " ++ toString (roundedConfidence p) ++ "%\n\n" ++
  generateReading (handOf p)

/-- `/analyze-palm` as a function from the model-loaded flag, the uploaded
file (`none` = no file; `some (.error m)` = sharp throws) and the predict
outcome to the trace of its effects. -/
def analyzePalm (loaded : Bool) (file : Option (Except String DecodedImage))
    (predictResult : Except String ℚ) : AnalyzeTrace :=
  if loaded then
    match file with
    | none => ⟨.err 400 "No image", 0, 0, 0⟩
    | some (.error m) => ⟨.err 500 m, 0, 0, 0⟩
    | some (.ok img) =>
        match preprocess img with
        | .error m => ⟨.err 500 m, 0, 0, 0⟩
        | .ok _t =>
            match predictResult with
            | .error m => ⟨.err 500 m, 1, 0, 1⟩
            | .ok p =>
                ⟨.success (handJaOf p) (handOf p) (roundedConfidence p)
                    (generateReading (handOf p)) (lineMessageOf p), 1, 1, 1⟩
  else ⟨.err 503 "Model loading", 0, 0, 0⟩

/-! ## Text message handling

`handleTextMessage(event)`: lowercases the text, then matches it against a
fixed keyword rule set (greeting / help / other) and sends exactly one canned
reply. -/

/-- JavaScript `String.prototype.toLowerCase`, character by character (the
keywords in the source are ASCII or Japanese, on which this agrees with the
JavaScript builtin). -/
def jsToLowerCase (s : String) : String := ⟨s.data.map Char.toLower⟩

/-- Substring test on character lists, used to model
`String.prototype.includes`. -/
def containsSub (sub : List Char) : List Char → Bool
  | [] => sub.isEmpty
  | c :: rest => sub.isPrefixOf (c :: rest) || containsSub sub rest

/-- JavaScript `text.includes(sub)`. -/
def jsIncludes (s sub : String) : Bool := containsSub sub.data s.data

/-- The greeting reply of `handleTextMessage`. -/
def greetingReply : String :=
  "こんにちは！手相鑑定botです✋\n\n" ++
  "手のひらの写真を送っていただければ、AI分析による詳しい手相鑑定をお返しします。\n\n" ++
  "📝 撮影のコツ：\n" ++
  "• 明るい場所で撮影\n" ++
  "• 手のひら全体が写るように\n" ++
  "• ピンぼけしないよう注意\n\n" ++
  "それでは、お手相を拝見させていただきますね！🔮"

/-- The help reply of `handleTextMessage`. -/
def helpReply : String :=
  "📋 手相鑑定botの使い方\n\n" ++
  "1️⃣ 手のひらの写真を撮影\n" ++
  "2️⃣ このチャットに写真を送信\n" ++
  "3️⃣ AI分析による鑑定結果をお返しします\n\n" ++
  "💡 より正確な鑑定のために：\n" ++
  "• 自然光で撮影（室内灯でもOK）\n" ++
  "• 手を平らに広げて\n" ++
  "• 指先から手首まで全体を写す\n" ++
  "• ブレないよう固定して撮影\n\n" ++
  "準備ができましたら、写真をお送りください📷"

/-- The default reply of `handleTextMessage`. -/
def defaultReply : String :=
  "お疲れさまです！✨\n\n" ++
  "手相鑑定をご希望でしたら、手のひらの写真を送ってくださいね📸\n\n" ++
  "使い方が分からない場合は「ヘルプ」と送信してください。"

/-- The keyword branch of `handleTextMessage`, applied to the already
lowercased text. -/
def selectReplyFromLowered (text : String) : String :=
  if jsIncludes text "こんにち" || jsIncludes text "はじめ" ||
      jsIncludes text "hello" then greetingReply
  else if jsIncludes text "使い方" || jsIncludes text "ヘルプ" ||
      jsIncludes text "help" then helpReply
  else defaultReply

/-- `handleTextMessage`'s reply text:
`const text = event.message.text.toLowerCase();` followed by the keyword
branch. -/
def selectTextReply (raw : String) : String :=
  selectReplyFromLowered (jsToLowerCase raw)

/-! ## The webhook event dispatcher

`app.post('/line-webhook')`: iterates over `req.body.events`; events with
`event.type === 'message'` dispatch on `event.message.type` (`'image'` to
`handlePalmReading`, `'text'` to `handleTextMessage`); every other event is
skipped.  Both handlers catch all their errors internally, so the loop always
reaches every event of the batch.  Each event carries the outcomes its
pipeline would observe from the external collaborators. -/

/-- The `event.message` object, together with the collaborator outcomes of
its processing. -/
inductive LineMessage where
  | image (id : String) (env : ImageEnv)
  | text (content : String)
  | otherKind (t : String)

/-- One webhook event: a message event with its reply token, or an event of
some other type. -/
inductive LineEvent where
  | message (replyToken : String) (msg : LineMessage)
  | nonMessage (t : String)

/-- An event is recognized when it is a message event carrying an image or a
text message. -/
def isRecognized : LineEvent → Bool
  | .message _ (.image _ _) => true
  | .message _ (.text _) => true
  | .message _ (.otherKind _) => false
  | .nonMessage _ => false

/-- Dispatch of one webhook event: the replies attempted for it. -/
def processEvent (loaded : Bool) : LineEvent → List (String × String)
  | .message replyToken (.image _ env) =>
      (handlePalmReading replyToken loaded env).replies
  | .message replyToken (.text content) =>
      [(replyToken, selectTextReply content)]
  | .message _ (.otherKind _) => []
  | .nonMessage _ => []

/-- The `for (const event of events)` loop of the webhook handler. -/
def processEvents (loaded : Bool) : List LineEvent → List (String × String)
  | [] => []
  | ev :: rest => processEvent loaded ev ++ processEvents loaded rest

/-! ## Server state and startup

`let loaded = false;` — `loadModel()` is called once at startup, sets
`loaded = true` on success and, in its `catch`, only logs: the state is left
unchanged and no retry is attempted.  No request handler ever writes
`loaded`; they only read it. -/

/-- The process-wide mutable state: the `loaded` flag. -/
structure ServerState where
  loaded : Bool
deriving DecidableEq, Repr

/-- The state before `loadModel()` runs. -/
def initialState : ServerState := ⟨false⟩

/-- `loadModel()`: one attempt; on success set `loaded = true`, on failure
log and leave the state unchanged (no retry). -/
def loadModel (outcome : Except String Unit) (s : ServerState) : ServerState :=
  match outcome with
  | .ok _ => { s with loaded := true }
  | .error _ => s

/-- The `/health` response body's `status` field. -/
def healthStatus (s : ServerState) : String :=
  if s.loaded then "healthy" else "loading"

/-- One inbound HTTP request, with the collaborator outcomes its processing
would observe. -/
inductive Request where
  | root
  | health
  | analyze (file : Option (Except String DecodedImage))
      (predictResult : Except String ℚ)
  | webhook (events : List LineEvent)

/-- The observable output of one request. -/
inductive RequestOutput where
  | rootInfo (status : String) (loaded : Bool)
  | healthInfo (status : String)
  | analyzed (t : AnalyzeTrace)
  | webhookReplies (replies : List (String × String))

/-- Serving one request: every handler only reads `loaded`, so the state
passes through unchanged. -/
def serveRequest (s : ServerState) : Request → RequestOutput × ServerState
  | .root => (.rootInfo "OK" s.loaded, s)
  | .health => (.healthInfo (healthStatus s), s)
  | .analyze file predictResult => (.analyzed (analyzePalm s.loaded file predictResult), s)
  | .webhook events => (.webhookReplies (processEvents s.loaded events), s)

/-- Serving a sequence of requests. -/
def serveAll (s : ServerState) : List Request → ServerState
  | [] => s
  | r :: rest => serveAll (serveRequest s r).2 rest

theorem serveAll_state (s : ServerState) (reqs : List Request) :
    serveAll s reqs = s := by
  induction reqs with
  | nil => rfl
  | cons r rest ih =>
      cases r <;> simpa [serveAll, serveRequest] using ih

/-! ## Helper lemmas for the decision rule -/

theorem handOf_right_iff (p : ℚ) : handOf p = "right" ↔ 1/2 < p := by
  unfold handOf
  by_cases h : (1/2 : ℚ) < p
  · rw [if_pos h]
    exact iff_of_true rfl h
  · rw [if_neg h]
    exact iff_of_false (by decide) h

theorem roundedConfidence_bounds (p : ℚ) (h0 : 0 ≤ p) (h1 : p ≤ 1) :
    50 ≤ roundedConfidence p ∧ roundedConfidence p ≤ 100 := by
  have hm1 : (1/2 : ℚ) ≤ max p (1 - p) := by
    rcases le_total p (1/2) with h | h
    · exact le_max_of_le_right (by linarith)
    · exact le_max_of_le_left h
  have hm2 : max p (1 - p) ≤ 1 := max_le h1 (by linarith)
  unfold roundedConfidence confidenceOf jsRound
  constructor
  · refine Int.le_floor.2 ?_
    push_cast
    linarith
  · have hlt : ⌊max p (1 - p) * 100 + 1/2⌋ < (101 : ℤ) := by
      refine Int.floor_lt.2 ?_
      push_cast
      linarith
    omega

theorem roundedConfidence_zero : roundedConfidence 0 = 100 := by
  unfold roundedConfidence confidenceOf jsRound
  rw [max_eq_right (by norm_num : (0:ℚ) ≤ 1 - 0)]
  norm_num

theorem roundedConfidence_three_tenths : roundedConfidence (3/10 : ℚ) = 70 := by
  unfold roundedConfidence confidenceOf jsRound
  rw [max_eq_right (by norm_num : (3:ℚ)/10 ≤ 1 - 3/10)]
  norm_num

theorem roundedConfidence_half : roundedConfidence (1/2 : ℚ) = 50 := by
  unfold roundedConfidence confidenceOf jsRound
  rw [show max ((1:ℚ)/2) (1 - 1/2) = 1/2 by norm_num]
  norm_num

theorem roundedConfidence_seven_tenths : roundedConfidence (7/10 : ℚ) = 70 := by
  unfold roundedConfidence confidenceOf jsRound
  rw [max_eq_left (by norm_num : 1 - (7:ℚ)/10 ≤ 7/10)]
  norm_num

theorem roundedConfidence_one : roundedConfidence 1 = 100 := by
  unfold roundedConfidence confidenceOf jsRound
  rw [max_eq_left (by norm_num : (1:ℚ) - 1 ≤ 1)]
  norm_num

/-- C1: for every score in `[0,1]` the decision rule labels `right` iff the
score exceeds `0.5` (the tie at `0.5` resolves to `left`), and the reported
confidence is `round(max(score, 1-score) * 100)`, an integer in `[50,100]`;
at the scores `0, 0.3, 0.5, 0.7, 1` the confidence is `100, 70, 50, 70, 100`
respectively. -/
theorem decision_rule_correct (p : ℚ) (h0 : 0 ≤ p) (h1 : p ≤ 1) :
    (handOf p = "right" ↔ 1/2 < p) ∧
    handOf (1/2 : ℚ) = "left" ∧
    roundedConfidence p = jsRound (max p (1 - p) * 100) ∧
    (50 ≤ roundedConfidence p ∧ roundedConfidence p ≤ 100) ∧
    roundedConfidence 0 = 100 ∧ roundedConfidence (3/10 : ℚ) = 70 ∧
    roundedConfidence (1/2 : ℚ) = 50 ∧ roundedConfidence (7/10 : ℚ) = 70 ∧
    roundedConfidence 1 = 100 :=
  ⟨handOf_right_iff p, by norm_num [handOf], rfl,
   roundedConfidence_bounds p h0 h1, roundedConfidence_zero,
   roundedConfidence_three_tenths, roundedConfidence_half,
   roundedConfidence_seven_tenths, roundedConfidence_one⟩

/-- Witness for C1 at the concrete score `0.3`. -/
theorem decision_rule_correct_witness :
    (handOf ((3:ℚ)/10) = "right" ↔ 1/2 < (3:ℚ)/10) ∧
    (50 ≤ roundedConfidence ((3:ℚ)/10) ∧ roundedConfidence ((3:ℚ)/10) ≤ 100) ∧
    roundedConfidence ((3:ℚ)/10) = 70 :=
  ⟨(decision_rule_correct (3/10) (by norm_num) (by norm_num)).1,
   (decision_rule_correct (3/10) (by norm_num) (by norm_num)).2.2.2.1,
   (decision_rule_correct (3/10) (by norm_num) (by norm_num)).2.2.2.2.2.1⟩

/-- C8: the classification at the exact tie score `0.5` is the fixed label
`left`, and for every score other than `0.5` the labels of `score` and
`1 - score` are opposite. -/
theorem classify_tie_and_antisymmetry (q : ℚ) (_h0 : 0 ≤ q) (_h1 : q ≤ 1)
    (hne : q ≠ 1/2) :
    handOf (1/2 : ℚ) = "left" ∧
    (handOf q = "right" ↔ handOf (1 - q) = "left") := by
  refine ⟨by norm_num [handOf], ?_⟩
  rcases lt_or_gt_of_ne hne with h | h
  · unfold handOf
    rw [if_neg (not_lt.2 h.le), if_pos (by linarith : (1/2:ℚ) < 1 - q)]
    decide
  · unfold handOf
    rw [if_pos h, if_neg (not_lt.2 (by linarith : 1 - q ≤ 1/2))]
    decide

/-- Witness for C8 at the concrete score `0.7`. -/
theorem classify_tie_and_antisymmetry_witness :
    handOf (1/2 : ℚ) = "left" ∧
    (handOf ((7:ℚ)/10) = "right" ↔ handOf (1 - (7:ℚ)/10) = "left") :=
  classify_tie_and_antisymmetry (7/10) (by norm_num) (by norm_num) (by norm_num)

/-! ## Concrete images for the preprocessing claims -/

/-- Raw resized bytes of an all-black three-channel (RGB) 224×224 image. -/
def okBytes : List Nat := List.replicate (224 * 224 * 3) 0

/-- A decoded three-channel 224×224 image. -/
def okImg : DecodedImage where
  channels := 3
  resizedBytes := okBytes
  length_eq := List.length_replicate _ _
  bytes_lt := by
    intro b hb
    rw [List.eq_of_mem_replicate hb]
    decide

/-- Raw resized bytes of an all-black four-channel (RGBA) 224×224 image. -/
def rgbaBytes : List Nat := List.replicate (224 * 224 * 4) 0

/-- A decoded four-channel (RGBA) 224×224 image: sharp's raw output keeps the
alpha channel, so the buffer has `224·224·4` bytes. -/
def rgbaImg : DecodedImage where
  channels := 4
  resizedBytes := rgbaBytes
  length_eq := List.length_replicate _ _
  bytes_lt := by
    intro b hb
    rw [List.eq_of_mem_replicate hb]
    decide

/-- C2 counterexample: on a four-channel (RGBA) image the preprocessing does
not return any tensor — the raw buffer has `224·224·4` bytes, `tf.tensor4d`
rejects it against the shape `[1,224,224,3]`, and the code throws instead of
dropping the alpha channel. -/
theorem preprocess_rgba_counterexample :
    rgbaImg.channels = 4 ∧ (preprocess rgbaImg).toOption = none :=
  ⟨rfl, preprocess_err_of_channels_ne_three rgbaImg (by decide)⟩

/-- C2 (amended): for every valid image that decodes to exactly three
channels, preprocessing returns a tensor of shape `[1,224,224,3]` whose
values all lie in `[0,1]`; an image decoding to any other channel count is
not channel-converted — `tf.tensor4d` fails and no tensor is produced. -/
theorem preprocess_shape_and_range (img : DecodedImage) (h3 : img.channels = 3)
    (img' : DecodedImage) (hne : img'.channels ≠ 3) :
    (∃ t, preprocess img = .ok t ∧ t.shape = [1, 224, 224, 3] ∧
        ∀ v ∈ t.data, 0 ≤ v ∧ v ≤ 1) ∧
    (preprocess img').toOption = none := by
  refine ⟨⟨⟨[1, 224, 224, 3], toFloat32Array img.resizedBytes⟩,
      preprocess_ok_of_three_channels img h3, rfl,
      toFloat32Array_mem_unit img⟩,
    preprocess_err_of_channels_ne_three img' hne⟩

/-- Witness for the amended C2: the three-channel image `okImg` yields the
`[1,224,224,3]` tensor while the four-channel image `rgbaImg` yields none. -/
theorem preprocess_shape_and_range_witness :
    (∃ t, preprocess okImg = .ok t ∧ t.shape = [1, 224, 224, 3] ∧
        ∀ v ∈ t.data, 0 ≤ v ∧ v ≤ 1) ∧
    (preprocess rgbaImg).toOption = none :=
  preprocess_shape_and_range okImg rfl rgbaImg (by decide)

/-! ## Fortune orchestrator claims -/

/-- C3: whenever the chat-completion call fails in any way — network error,
non-success HTTP status, or malformed response body — `getChatGPTFortune`
returns the deterministic fallback text built only from the hand label, the
basic reading and the confidence; and every invocation, failing or not,
makes exactly one outbound attempt (no retry).  The function is total, so no
exception escapes the component. -/
theorem fortune_fallback_on_failure (pd : PalmData) (o o' : ChatOutcome)
    (h : o.isFailure = true) :
    getChatGPTFortune pd o = (fallbackFortune pd, 1) ∧
    (getChatGPTFortune pd o').2 = 1 := by
  constructor
  · cases o with
    | networkError => rfl
    | response ok content =>
        cases ok
        · rfl
        · cases content with
          | none => rfl
          | some c => simp [ChatOutcome.isFailure] at h
  · cases o' with
    | networkError => rfl
    | response ok content => cases ok <;> cases content <;> rfl

/-- Witness for C3: a network error on a concrete classification yields the
fallback text and a single attempt. -/
theorem fortune_fallback_on_failure_witness :
    getChatGPTFortune ⟨"右手", "right", 70, "Your right hand shows drive and determination."⟩
        .networkError =
      (fallbackFortune ⟨"右手", "right", 70, "Your right hand shows drive and determination."⟩, 1) :=
  (fortune_fallback_on_failure _ .networkError .networkError rfl).1

/-! ## Image-event pipeline claims -/

theorem handlePalmReading_replies_length (tok : String) (loaded : Bool)
    (env : ImageEnv) : (handlePalmReading tok loaded env).replies.length = 1 := by
  obtain ⟨fetch, predict, chat⟩ := env
  cases fetch with
  | networkError => rfl
  | response ok decoded =>
      cases ok
      · rfl
      · cases decoded with
        | error m => rfl
        | ok img =>
            cases loaded
            · rfl
            · cases hpre : preprocess img with
              | error m => simp [handlePalmReading, hpre, failureTrace]
              | ok t =>
                  cases predict with
                  | error m => simp [handlePalmReading, hpre, failureTrace]
                  | ok p => simp [handlePalmReading, hpre]

/-- C4: whenever any stage of the image pipeline before the reply step fails
— content fetch, decode, model-loaded check, tensor construction, or predict
— the event gets exactly the single fixed "analysis failed" reply, the same
one regardless of the failing stage; and every image event, failing or not,
gets exactly one reply. -/
theorem image_event_single_failure_reply (tok : String) (loaded : Bool)
    (env : ImageEnv) (h : pipelineFails loaded env = true) :
    (handlePalmReading tok loaded env).replies = [(tok, analysisFailedMessage)] ∧
    (handlePalmReading tok loaded env).replies.length = 1 := by
  refine ⟨?_, handlePalmReading_replies_length tok loaded env⟩
  obtain ⟨fetch, predict, chat⟩ := env
  cases fetch with
  | networkError => rfl
  | response ok decoded =>
      cases ok
      · rfl
      · cases decoded with
        | error m => rfl
        | ok img =>
            cases loaded
            · rfl
            · cases hpre : preprocess img with
              | error m => simp [handlePalmReading, hpre, failureTrace]
              | ok t =>
                  have h3 : img.channels = 3 := preprocess_isOk_channels img t hpre
                  cases predict with
                  | error m => simp [handlePalmReading, hpre, failureTrace]
                  | ok p =>
                      exfalso
                      simp [pipelineFails, h3] at h

/-- An image-event environment whose LINE content fetch throws. -/
def failEnv : ImageEnv := ⟨.networkError, .ok (1/2), .networkError⟩

/-- Witness for C4: a fetch failure produces exactly the fixed reply. -/
theorem image_event_single_failure_reply_witness :
    (handlePalmReading "U1" true failEnv).replies =
      [("U1", analysisFailedMessage)] :=
  (image_event_single_failure_reply "U1" true failEnv rfl).1

theorem handlePalmReading_success_trace (tok : String) (img : DecodedImage)
    (p : ℚ) (chat : ChatOutcome) (h3 : img.channels = 3) :
    handlePalmReading tok true ⟨.response true (.ok img), .ok p, chat⟩ =
      { replies := [(tok, (getChatGPTFortune (mkPalmData p) chat).1)],
        tensorsCreated := 1, tensorsDisposed := 0, predictCalls := 1 } := by
  have hpre := preprocess_ok_of_three_channels img h3
  simp [handlePalmReading, hpre]

theorem analyzePalm_predict_failure (img : DecodedImage) (h3 : img.channels = 3)
    (m : String) :
    analyzePalm true (some (.ok img)) (.error m) = ⟨.err 500 m, 1, 0, 1⟩ := by
  have hpre := preprocess_ok_of_three_channels img h3
  simp [analyzePalm, hpre]

/-- C5 (code bug): the tensor created by the webhook pipeline is never
disposed — on the fully successful path `handlePalmReading` creates one
tensor and disposes none — and the standalone `/analyze-palm` handler also
skips its dispose when predict throws, because `tensor.dispose()` is only
reached on its success path. -/
theorem tensor_never_disposed :
    (handlePalmReading "U1" true ⟨.response true (.ok okImg), .ok (7/10), .networkError⟩).tensorsCreated = 1 ∧
    (handlePalmReading "U1" true ⟨.response true (.ok okImg), .ok (7/10), .networkError⟩).tensorsDisposed = 0 ∧
    (analyzePalm true (some (.ok okImg)) (.error "predict failed")).tensorsCreated = 1 ∧
    (analyzePalm true (some (.ok okImg)) (.error "predict failed")).tensorsDisposed = 0 := by
  have h := handlePalmReading_success_trace "U1" okImg (7/10) .networkError rfl
  have h2 := analyzePalm_predict_failure okImg rfl "predict failed"
  exact ⟨by rw [h], by rw [h], by rw [h2], by rw [h2]⟩

/-! ## Startup / model-loading claims -/

/-- C6: when loading the model artifact fails at startup the process keeps
running: the `catch` in `loadModel` leaves `loaded = false`, no later request
changes it (no automatic retry — request handlers only read the flag), the
health endpoint reports `loading`, `/analyze-palm` fails fast with the 503
`Model loading` status without creating a tensor or calling predict, and the
webhook image pipeline likewise takes its failure path without any predict
call. -/
theorem model_load_failure_degraded (e : String) (reqs : List Request)
    (file : Option (Except String DecodedImage)) (pr : Except String ℚ)
    (tok : String) (env : ImageEnv) :
    (loadModel (.error e) initialState).loaded = false ∧
    healthStatus (loadModel (.error e) initialState) = "loading" ∧
    (serveAll (loadModel (.error e) initialState) reqs).loaded = false ∧
    (analyzePalm false file pr).outcome = .err 503 "Model loading" ∧
    (analyzePalm false file pr).predictCalls = 0 ∧
    (analyzePalm false file pr).tensorsCreated = 0 ∧
    handlePalmReading tok false env = failureTrace tok 0 0 0 := by
  refine ⟨rfl, rfl, ?_, rfl, rfl, rfl, ?_⟩
  · rw [serveAll_state]
    rfl
  · obtain ⟨fetch, predict, chat⟩ := env
    cases fetch with
    | networkError => rfl
    | response ok decoded =>
        cases ok
        · rfl
        · cases decoded with
          | error m => rfl
          | ok img => rfl

/-! ## Dispatcher claims -/

theorem processEvent_length_of_recognized (loaded : Bool) (ev : LineEvent)
    (h : isRecognized ev = true) : (processEvent loaded ev).length = 1 := by
  cases ev with
  | message tok msg =>
      cases msg with
      | image id env => exact handlePalmReading_replies_length tok loaded env
      | text content => rfl
      | otherKind t => simp [isRecognized] at h
  | nonMessage t => simp [isRecognized] at h

/-- C7: the webhook loop processes every event of a batch independently: the
replies of a 3-event batch are exactly the concatenation of each event's own
replies, whatever happens to the middle event, and recognized first and third
events each still get exactly one reply. -/
theorem batch_failure_isolation (loaded : Bool) (e1 e2 e3 : LineEvent)
    (h1 : isRecognized e1 = true) (h3 : isRecognized e3 = true) :
    processEvents loaded [e1, e2, e3] =
      processEvent loaded e1 ++ (processEvent loaded e2 ++ processEvent loaded e3) ∧
    (processEvent loaded e1).length = 1 ∧
    (processEvent loaded e3).length = 1 := by
  refine ⟨?_, processEvent_length_of_recognized loaded e1 h1,
    processEvent_length_of_recognized loaded e3 h3⟩
  simp [processEvents]

/-- First event of the witness batch: a greeting text message. -/
def wEvent1 : LineEvent := .message "U1" (.text "hello")

/-- Second event of the witness batch: an image message whose pipeline raises
(the content fetch throws). -/
def wEvent2 : LineEvent := .message "U2" (.image "M2" failEnv)

/-- Third event of the witness batch: a help text message. -/
def wEvent3 : LineEvent := .message "U3" (.text "ヘルプ")

/-- Witness for C7: in a concrete 3-event batch whose second event's pipeline
raises, events 1 and 3 still produce their replies. -/
theorem batch_failure_isolation_witness :
    pipelineFails true failEnv = true ∧
    processEvents true [wEvent1, wEvent2, wEvent3] =
      processEvent true wEvent1 ++ (processEvent true wEvent2 ++ processEvent true wEvent3) ∧
    (processEvent true wEvent1).length = 1 ∧
    (processEvent true wEvent3).length = 1 :=
  ⟨rfl, batch_failure_isolation true wEvent1 wEvent2 wEvent3 rfl rfl⟩

/-- C9: every recognized event — a message event carrying an image or a text
message — results in exactly one reply attempt, and every event of an
unrecognized type is ignored: no reply and no error. -/
theorem dispatcher_reply_discipline (loaded : Bool) (ev : LineEvent) :
    (isRecognized ev = true → (processEvent loaded ev).length = 1) ∧
    (isRecognized ev = false → processEvent loaded ev = []) := by
  constructor
  · exact processEvent_length_of_recognized loaded ev
  · intro h
    cases ev with
    | message tok msg =>
        cases msg with
        | image id env => simp [isRecognized] at h
        | text content => simp [isRecognized] at h
        | otherKind t => rfl
    | nonMessage t => rfl

/-- Witness for C9: a concrete text event gets exactly one reply and a
concrete non-message event (e.g. a follow event) gets none. -/
theorem dispatcher_reply_discipline_witness :
    (processEvent true (.message "U9" (.text "こんにちは"))).length = 1 ∧
    processEvent true (.nonMessage "follow") = [] :=
  ⟨(dispatcher_reply_discipline true (.message "U9" (.text "こんにちは"))).1 rfl,
   (dispatcher_reply_discipline true (.nonMessage "follow")).2 rfl⟩

/-! ## Text-reply claims -/

/-- C10: `handleTextMessage` matches on the lowercased text, so any two
messages with the same lowercasing — in particular `"HELLO"` and `"hello"` —
select the identical canned reply, and every input text selects some
non-empty reply. -/
theorem text_reply_case_insensitive (t1 t2 t : String)
    (h : jsToLowerCase t1 = jsToLowerCase t2) :
    selectTextReply t1 = selectTextReply t2 ∧
    selectTextReply "HELLO" = selectTextReply "hello" ∧
    selectTextReply t ≠ "" := by
  refine ⟨?_, rfl, ?_⟩
  · unfold selectTextReply
    rw [h]
  · unfold selectTextReply selectReplyFromLowered
    split_ifs <;> decide

/-- Witness for C10 at the concrete texts `"HELLO"`, `"hello"` and
`"morning"`. -/
theorem text_reply_case_insensitive_witness :
    selectTextReply "HELLO" = selectTextReply "hello" ∧
    selectTextReply "morning" ≠ "" :=
  ⟨(text_reply_case_insensitive "HELLO" "hello" "morning" rfl).1,
   (text_reply_case_insensitive "HELLO" "hello" "morning" rfl).2.2⟩

end PalmAI
